import Mathlib

/-!
Verification of the AcleapBackendService token-acquisition and
request-relay layer: a shallow embedding of `getAzureADToken.js` and
`makeFhirRequest.js` together with theorems about the routes' behaviour.

Outbound network calls are modelled by an oracle (`AxiosOutcome`) giving
the result of each axios call; request processing is a pure function of
the inbound request and that oracle.
-/

namespace Acleap

/-- JSON values, as the JS object/array/primitive trees the service builds
and relays. -/
inductive Json where
  | null
  | str (s : String)
  | num (n : Int)
  | bool (b : Bool)
  | arr (items : List Json)
  | obj (fields : List (String × Json))
deriving Repr

/-- JS property access `o.f`: `none` models `undefined` (absent field, or
access on a non-object). -/
def Json.getField : Json → String → Option Json
  | .obj fs, k => fs.lookup k
  | _, _ => none

/-- JS string coercion as used in template literals.  The service only ever
interpolates strings (tokens, upstream messages); compound values are the
usual `Array.prototype.toString` join and `"[object Object]"`. -/
def Json.jsString : Json → String
  | .null => "null"
  | .str s => s
  | .num n => toString n
  | .bool b => if b then "true" else "false"
  | .arr xs => String.intercalate "," (xs.attach.map (fun x => x.1.jsString))
  | .obj _ => "[object Object]"
decreasing_by
  have h := List.sizeOf_lt_of_mem x.2
  simp only [Json.arr.sizeOf_spec]
  omega

/-- JS coercion of a possibly-`undefined` value, as in `\`Bearer ${v}\``. -/
def jsToString : Option Json → String
  | none => "undefined"
  | some j => j.jsString

/-- HTTP methods used by the service. -/
inductive Method where
  | GET
  | POST
  | PATCH
deriving Repr, DecidableEq

/-- One outbound axios request as the service constructs it: URL, headers,
query params (axios `params`), and body. -/
structure OutboundRequest where
  method : Method
  url : String
  headers : List (String × String)
  params : List (String × String)
  body : Option Json
deriving Repr

/-- Oracle for one axios call.  axios resolves on 2xx and rejects
otherwise: `httpError` is a rejection with `error.response` set (status
and data), `noResponse` one with only `error.request` set, and
`setupError` one with neither (failure before dispatch). -/
inductive AxiosOutcome where
  | success (status : Nat) (data : Json)
  | httpError (status : Nat) (data : Json) (message : String)
  | noResponse (message : String)
  | setupError (message : String)
deriving Repr

/-- `AxiosOutcome`s that reject the promise. -/
def AxiosOutcome.isFailure : AxiosOutcome → Bool
  | .success .. => false
  | _ => true

/-- The shape of a JS error value as inspected by the error-handling
middleware: `error.response` (upstream status and data, when a response
arrived), whether `error.request` is set, and `error.message`. -/
structure JsError where
  response : Option (Nat × Json)
  request : Bool
  message : String
deriving Repr

/-- The JS error a rejected axios call produces, as seen by a `catch`. -/
def AxiosOutcome.toJsError : AxiosOutcome → JsError
  | .success .. => { response := none, request := false, message := "" }
  | .httpError st d m => { response := some (st, d), request := true, message := m }
  | .noResponse m => { response := none, request := true, message := m }
  | .setupError m => { response := none, request := false, message := m }

/-- The environment-sourced credential set read by `getAzureADToken.js`
(`TENANT_ID`, `CLIENT_ID`, `CLIENT_SECRET`, `SCOPE`, `TOKEN_URL`). -/
structure Credentials where
  tenantId : String
  clientId : String
  clientSecret : String
  scope : String
  tokenUrl : String
deriving Repr, DecidableEq

/-- The single POST that `getAzureADToken` sends: form-encoded
client-credentials grant to the token endpoint. -/
def tokenRequest (c : Credentials) : OutboundRequest :=
  { method := .POST
  , url := c.tokenUrl
  , headers := [("Content-Type", "application/x-www-form-urlencoded")]
  , params := []
  , body := some (.obj
      [ ("client_id", .str c.clientId)
      , ("scope", .str c.scope)
      , ("client_secret", .str c.clientSecret)
      , ("grant_type", .str "client_credentials") ]) }

/-- One run of `getAzureADToken`: the outbound request it issued, its
result (`ok`: the `access_token` field of the response body, possibly
`undefined`; `error`: the thrown JS `Error`), and what `console.error`
interpolated on failure (`error.response.data` when a response arrived,
else `error.message`). -/
structure TokenAttempt where
  request : OutboundRequest
  result : Except JsError (Option Json)
  logged : Option Json
deriving Repr

/-- `getAzureADToken` (getAzureADToken.js, lines 12-42): posts the
client-credentials form once; on 2xx returns `tokenResponse.data.access_token`;
on any failure logs the upstream data or transport message and throws
`new Error('Failed to obtain access token from Azure AD')`. -/
def getAzureADToken (c : Credentials) (outcome : AxiosOutcome) : TokenAttempt :=
  { request := tokenRequest c
  , result :=
      match outcome with
      | .success _ data => .ok (data.getField "access_token")
      | _ => .error
          { response := none
          , request := false
          , message := "Failed to obtain access token from Azure AD" }
  , logged :=
      match outcome with
      | .success .. => none
      | .httpError _ d _ => some d
      | .noResponse m => some (.str m)
      | .setupError m => some (.str m) }

/-- An HTTP response as the service sends it (`none` body models
`res.json(undefined)`, which sends no payload). -/
structure Response where
  status : Nat
  body : Option Json
deriving Repr

/-- The error-handling middleware (makeFhirRequest.js, lines 43-52): the
three-way classifier over a caught/forwarded error. -/
def errorHandler (e : JsError) : Response :=
  match e.response with
  | some (st, data) =>
      { status := st
      , body := some (.obj [("message", .str "FHIR Server Error"), ("error", data)]) }
  | none =>
      if e.request then
        { status := 500
        , body := some (.obj
            [ ("message", .str "No response received from FHIR Server")
            , ("error", .str e.message) ]) }
      else
        { status := 500
        , body := some (.obj
            [ ("message", .str "Error processing your request")
            , ("error", .str e.message) ]) }

/-- Language code mapping (makeFhirRequest.js, lines 457-468). -/
def languageCodeMapping : List (String × String) :=
  [ ("Polish", "pl"), ("Chinese", "zh"), ("Tagalog", "tl"), ("Arabic", "ar")
  , ("Urdu", "ur"), ("Gujarati", "gu"), ("Russian", "ru"), ("Hindi", "hi")
  , ("Korean", "ko"), ("English", "en") ]

/-- Ethnicity code mapping (makeFhirRequest.js, lines 470-475). -/
def ethnicityCodeMapping : List (String × String) :=
  [ ("Asked but unknown", "ASKU"), ("Hispanic or Latino", "2135-2")
  , ("Not Hispanic or Latino", "2186-5"), ("Unknown", "UNK") ]

/-- Race code mapping (makeFhirRequest.js, lines 477-486). -/
def raceCodeMapping : List (String × String) :=
  [ ("American Indian or Alaska Native", "1002-5"), ("Asian", "2028-9")
  , ("Asked but unknown", "ASKU"), ("Black or African American", "2054-5")
  , ("Native Hawaiian or Other Pacific Islander", "2076-8")
  , ("Other Race", "2131-1"), ("Unknown", "UNK"), ("White", "2106-3") ]

/-- Sex-at-birth code mapping (makeFhirRequest.js, lines 488-494). -/
def sexAtBirthCodeMapping : List (String × String) :=
  [ ("Asked but unknown", "ASKU"), ("Female", "F"), ("Male", "M")
  , ("Other", "OTH"), ("Unknown", "UNK") ]

/-- JS `mapping[v] || "UNK"`: property lookup with the `||` falsy fallback
(`undefined` and the empty string are falsy). -/
def jsOrDefault (v : Option String) (d : String) : String :=
  match v with
  | some s => if s = "" then d else s
  | none => d

/-- JS truthiness of a string, as in `if (genderIdentity)`. -/
def jsTruthy (s : String) : Bool :=
  s ≠ ""

/-- `createPatientObject` (makeFhirRequest.js, lines 497-639): builds the
Patient document from the UI form fields, translating language, ethnicity,
race and sex-at-birth through the static mappings with `"UNK"` fallback,
and appending the two optional extensions when their fields are truthy. -/
def createPatientObject (firstName lastName dateOfBirth gender race
    sex_at_birth ethnicity genderIdentity sexualOrientation language
    phoneNumber email address1 address2 city state zipcode : String) : Json :=
  let LanguageCode := jsOrDefault (languageCodeMapping.lookup language) "UNK"
  let ethnicityCode := jsOrDefault (ethnicityCodeMapping.lookup ethnicity) "UNK"
  let raceCode := jsOrDefault (raceCodeMapping.lookup race) "UNK"
  let sexAtBirthCode := jsOrDefault (sexAtBirthCodeMapping.lookup sex_at_birth) "UNK"
  let baseExtensions : List Json :=
    [ .obj
        [ ("url", .str "http://hl7.org/fhir/StructureDefinition/us-core-race")
        , ("extension", .arr
            [ .obj
                [ ("url", .str "ombCategory")
                , ("valueCoding", .obj
                    [ ("system", .str "urn:oid:2.16.840.1.113883.6.238")
                    , ("code", .str raceCode)
                    , ("display", .str race) ]) ]
            , .obj [("url", .str "text"), ("valueString", .str race)] ]) ]
    , .obj
        [ ("url", .str "http://hl7.org/fhir/us/core/StructureDefinition/us-core-ethnicity")
        , ("extension", .arr
            [ .obj
                [ ("url", .str "ombCategory")
                , ("valueCoding", .obj
                    [ ("system", .str "urn:oid:2.16.840.1.113883.6.238")
                    , ("code", .str ethnicityCode)
                    , ("display", .str ethnicity) ]) ]
            , .obj [("url", .str "text"), ("valueString", .str ethnicity)] ]) ]
    , .obj
        [ ("url", .str "http://hl7.org/fhir/us/core/StructureDefinition/us-core-birthsex")
        , ("valueCode", .str sexAtBirthCode) ] ]
  let giExtensions : List Json :=
    if jsTruthy genderIdentity then
      [ .obj
          [ ("url", .str "https://docs.mydata.athenahealth.com/fhir-r4/StructureDefinition/athena-patient-extension-genderIdentity")
          , ("valueCodeableConcept", .obj
              [ ("coding", .arr
                  [ .obj
                      [ ("system", .str "https://docs.mydata.athenahealth.com/fhir-r4/athenaFlex/genderIdentity")
                      , ("display", .str genderIdentity) ] ])
              , ("text", .str genderIdentity) ]) ] ]
    else []
  let soExtensions : List Json :=
    if jsTruthy sexualOrientation then
      [ .obj
          [ ("url", .str "https://docs.mydata.athenahealth.com/fhir-r4/StructureDefinition/athena-patient-extension-sexualOrientation")
          , ("valueCodeableConcept", .obj
              [ ("coding", .arr
                  [ .obj
                      [ ("system", .str "https://docs.mydata.athenahealth.com/fhir-r4/athenaFlex/sexualOrientation")
                      , ("display", .str sexualOrientation) ] ])
              , ("text", .str sexualOrientation) ]) ] ]
    else []
  .obj
    [ ("resourceType", .str "Patient")
    , ("active", .bool true)
    , ("name", .arr
        [ .obj
            [ ("use", .str "official")
            , ("family", .str lastName)
            , ("given", .arr [.str firstName]) ] ])
    , ("gender", .str gender)
    , ("birthDate", .str dateOfBirth)
    , ("telecom", .arr
        [ .obj [("system", .str "phone"), ("value", .str phoneNumber)]
        , .obj [("system", .str "email"), ("value", .str email)] ])
    , ("address", .arr
        [ .obj
            [ ("use", .str "home")
            , ("line", .arr [.str address1, .str address2])
            , ("city", .str city)
            , ("state", .str state)
            , ("postalCode", .str zipcode) ] ])
    , ("communication", .arr
        [ .obj
            [ ("language", .obj
                [ ("coding", .arr
                    [ .obj
                        [ ("system", .str "urn:ietf:bcp:47")
                        , ("code", .str LanguageCode)
                        , ("display", .str language) ] ])
                , ("text", .str language) ])
            , ("preferred", .bool true) ] ])
    , ("extension", .arr (baseExtensions ++ giExtensions ++ soExtensions)) ]

/-- `makeFHIRRequest` (makeFhirRequest.js, lines 34-40): GET on
`{fhirServerURL}/{resourceType}` with the middleware token as bearer and
`_count=10000` requesting one oversized page. -/
def makeFHIRRequest (fhirServerURL : String) (accessToken : Option Json)
    (resourceType : String) : OutboundRequest :=
  { method := .GET
  , url := fhirServerURL ++ "/" ++ resourceType
  , headers := [("Authorization", "Bearer " ++ jsToString accessToken)]
  , params := [("_count", "10000")]
  , body := none }

/-- What a route handler does with the request: respond directly, or
forward an error to the error-handling middleware via `next(error)`. -/
inductive HandlerResult where
  | respond (r : Response)
  | forward (e : JsError)
deriving Repr

/-- A handler run: the outbound calls it issued, and its result. -/
structure HandlerOutcome where
  trace : List OutboundRequest
  result : HandlerResult
deriving Repr

/-- A list route (makeFhirRequest.js, lines 56-65): relays
`makeFHIRRequest` and answers 200 with `response.data.entry`, forwarding
any failure to the error middleware. -/
def listRoute (fhirServerURL : String) (resource : String)
    (accessToken : Option Json) (outcome : AxiosOutcome) : HandlerOutcome :=
  let req := makeFHIRRequest fhirServerURL accessToken resource
  match outcome with
  | .success _ data =>
      { trace := [req], result := .respond { status := 200, body := data.getField "entry" } }
  | o => { trace := [req], result := .forward o.toJsError }

/-- An `updateTask` run: its outbound calls, and either success (the JS
function returns `undefined`) or the re-wrapped thrown `Error`. -/
structure UpdateTaskRun where
  trace : List OutboundRequest
  result : Except JsError Unit
deriving Repr

/-- `updateTask` (makeFhirRequest.js, lines 283-301): fetches its own
token, PATCHes `{fhirServerURL}/Task/{taskId}` with content-type
`application/json-patch+json` and `JSON.stringify(patchBody)` as body; any
failure is re-thrown as a plain `Error` whose message appends the upstream
data (when a response arrived) or the error message. -/
def updateTask (creds : Credentials) (fhirServerURL taskId : String)
    (patchBody : Json) (tokenOutcome patchOutcome : AxiosOutcome) : UpdateTaskRun :=
  let attempt := getAzureADToken creds tokenOutcome
  match attempt.result with
  | .error e =>
      { trace := [attempt.request]
      , result := .error
          { response := none, request := false
          , message := "Error updating Task: " ++ e.message } }
  | .ok tok =>
      let patchReq : OutboundRequest :=
        { method := .PATCH
        , url := fhirServerURL ++ "/Task/" ++ taskId
        , headers :=
            [ ("Authorization", "Bearer " ++ jsToString tok)
            , ("Content-Type", "application/json-patch+json") ]
        , params := []
        , body := some patchBody }
      match patchOutcome with
      | .success _ _ => { trace := [attempt.request, patchReq], result := .ok () }
      | .httpError _ d _ =>
          { trace := [attempt.request, patchReq]
          , result := .error
              { response := none, request := false
              , message := "Error updating Task: " ++ d.jsString } }
      | .noResponse m =>
          { trace := [attempt.request, patchReq]
          , result := .error
              { response := none, request := false
              , message := "Error updating Task: " ++ m } }
      | .setupError m =>
          { trace := [attempt.request, patchReq]
          , result := .error
              { response := none, request := false
              , message := "Error updating Task: " ++ m } }

/-- The `POST /update/Task/:taskId` handler (makeFhirRequest.js, lines
270-281): runs `updateTask` with the path id and the request body, answers
200 with the (undefined) return value, and forwards errors. -/
def updateTaskRoute (creds : Credentials) (fhirServerURL taskId : String)
    (patchBody : Json) (tokenOutcome patchOutcome : AxiosOutcome) : HandlerOutcome :=
  let run := updateTask creds fhirServerURL taskId patchBody tokenOutcome patchOutcome
  match run.result with
  | .ok _ => { trace := run.trace, result := .respond { status := 200, body := none } }
  | .error e => { trace := run.trace, result := .forward e }

/-- The flat form-shaped body of `POST /createPatient`, as destructured
from `req.body`. -/
structure PatientForm where
  firstName : String
  lastName : String
  dateOfBirth : String
  gender : String
  race : String
  sex_at_birth : String
  ethnicity : String
  genderIdentity : String
  sexualOrientation : String
  language : String
  phoneNumber : String
  email : String
  address1 : String
  address2 : String
  city : String
  state : String
  zipcode : String
deriving Repr

/-- The Patient document the `/createPatient` handler builds from the form. -/
def patientFromForm (f : PatientForm) : Json :=
  createPatientObject f.firstName f.lastName f.dateOfBirth f.gender f.race
    f.sex_at_birth f.ethnicity f.genderIdentity f.sexualOrientation
    f.language f.phoneNumber f.email f.address1 f.address2 f.city f.state
    f.zipcode

/-- The ad-hoc catch body of the two create routes:
`res.status(500).json({ error: 'Internal Server Error' })`. -/
def internalServerErrorResponse : Response :=
  { status := 500, body := some (.obj [("error", .str "Internal Server Error")]) }

/-- Headers of the create routes' POSTs. -/
def jsonAuthHeaders (tok : Option Json) : List (String × String) :=
  [ ("Content-Type", "application/json")
  , ("Authorization", "Bearer " ++ jsToString tok) ]

/-- The `POST /createPatient` handler (makeFhirRequest.js, lines 741-798):
builds the Patient document, fetches its own token, POSTs to
`{fhirServerURL}/Patient`, answers 201 with the created resource; any
failure is caught locally and answered 500 with
`{error: 'Internal Server Error'}` (this route never calls `next`). -/
def createPatientRoute (creds : Credentials) (fhirServerURL : String)
    (form : PatientForm) (tokenOutcome postOutcome : AxiosOutcome) : HandlerOutcome :=
  let patient := patientFromForm form
  let attempt := getAzureADToken creds tokenOutcome
  match attempt.result with
  | .error _ =>
      { trace := [attempt.request], result := .respond internalServerErrorResponse }
  | .ok tok =>
      let postReq : OutboundRequest :=
        { method := .POST
        , url := fhirServerURL ++ "/Patient"
        , headers := jsonAuthHeaders tok
        , params := []
        , body := some patient }
      match postOutcome with
      | .success _ data =>
          { trace := [attempt.request, postReq]
          , result := .respond { status := 201, body := some data } }
      | _ =>
          { trace := [attempt.request, postReq]
          , result := .respond internalServerErrorResponse }

/-- `createServiceRequestObject` (makeFhirRequest.js, lines 642-690). -/
def createServiceRequestObject (patientID practitionerId practitionerName
    organizationId organizationName referralText serviceRequestText : String) : Json :=
  .obj
    [ ("resourceType", .str "ServiceRequest")
    , ("status", .str "active")
    , ("intent", .str "order")
    , ("category", .arr
        [ .obj
            [ ("coding", .arr
                [ .obj
                    [ ("system", .str "codesystem/ordercategory")
                    , ("code", .str "referrals")
                    , ("display", .str "Referrals") ] ])
            , ("text", .str "Referrals") ] ])
    , ("code", .obj [("text", .str serviceRequestText)])
    , ("subject", .obj [("reference", .str ("Patient/" ++ patientID))])
    , ("requester", .obj
        [ ("reference", .str ("Practitioner/" ++ practitionerId))
        , ("display", .str practitionerName) ])
    , ("performer", .arr
        [ .obj
            [ ("reference", .str ("Organization/" ++ organizationId))
            , ("display", .str organizationName) ] ])
    , ("note", .arr [.obj [("text", .str referralText)]]) ]

/-- `createTaskObject` (makeFhirRequest.js, lines 693-739); `now` stands
for `new Date().toISOString()`.  The practitioner arguments are accepted
but unused by the document, whose `requester` reference is built from the
organization id, as in the source. -/
def createTaskObject (patientId serviceRequest practitionerId
    practitionerName organizationId organizationName now : String) : Json :=
  let _ := practitionerId
  let _ := practitionerName
  .obj
    [ ("resourceType", .str "Task")
    , ("meta", .obj
        [ ("profile", .arr
            [.str "http://hl7.org/fhir/us/sdoh-clinicalcare/StructureDefinition/SDOHCC-TaskForReferralManagement"]) ])
    , ("status", .str "requested")
    , ("intent", .str "order")
    , ("code", .obj
        [ ("coding", .arr
            [ .obj
                [ ("system", .str "http://hl7.org/fhir/CodeSystem/task-code")
                , ("code", .str "fulfill")
                , ("display", .str "Fulfill the service request") ] ]) ])
    , ("focus", .obj [("reference", .str ("ServiceRequest/" ++ serviceRequest))])
    , ("for", .obj [("reference", .str ("Patient/" ++ patientId))])
    , ("authoredOn", .str now)
    , ("requester", .obj
        [ ("reference", .str ("Practitioner/" ++ organizationId))
        , ("display", .str organizationName) ])
    , ("businessStatus", .obj [("text", .str "Received")])
    , ("owner", .obj
        [ ("reference", .str "PractitionerRole/example-practitionerRole")
        , ("display", .str "Dr. Owners") ]) ]

/-- The flat body of `POST /createServiceRequestandtask`. -/
structure ReferralForm where
  patientID : String
  practitionerId : String
  practitionerName : String
  organizationId : String
  organizationName : String
  referralText : String
  serviceRequestText : String
deriving Repr

/-- The `POST /createServiceRequestandtask` handler (makeFhirRequest.js,
lines 801-858): builds and POSTs the ServiceRequest, then builds the Task
around the created resource's `id` and POSTs it, answering 201 with both
created resources; any failure is caught locally and answered 500 with
`{error: 'Internal Server Error'}` (this route never calls `next`). -/
def createServiceRequestAndTaskRoute (creds : Credentials)
    (fhirServerURL : String) (form : ReferralForm) (now : String)
    (tokenOutcome srOutcome taskOutcome : AxiosOutcome) : HandlerOutcome :=
  let serviceRequest := createServiceRequestObject form.patientID
    form.practitionerId form.practitionerName form.organizationId
    form.organizationName form.referralText form.serviceRequestText
  let attempt := getAzureADToken creds tokenOutcome
  match attempt.result with
  | .error _ =>
      { trace := [attempt.request], result := .respond internalServerErrorResponse }
  | .ok tok =>
      let srReq : OutboundRequest :=
        { method := .POST
        , url := fhirServerURL ++ "/ServiceRequest"
        , headers := jsonAuthHeaders tok
        , params := []
        , body := some serviceRequest }
      match srOutcome with
      | .success _ srData =>
          let task := createTaskObject form.patientID
            (jsToString (srData.getField "id")) form.practitionerId
            form.practitionerName form.organizationId form.organizationName now
          let taskReq : OutboundRequest :=
            { method := .POST
            , url := fhirServerURL ++ "/Task"
            , headers := jsonAuthHeaders tok
            , params := []
            , body := some task }
          match taskOutcome with
          | .success _ taskData =>
              { trace := [attempt.request, srReq, taskReq]
              , result := .respond
                  { status := 201
                  , body := some (.obj [("serviceRequest", srData), ("task", taskData)]) } }
          | _ =>
              { trace := [attempt.request, srReq, taskReq]
              , result := .respond internalServerErrorResponse }
      | _ =>
          { trace := [attempt.request, srReq]
          , result := .respond internalServerErrorResponse }

/-- The `GET /health` handler (makeFhirRequest.js, lines 304-306): issues
no outbound call and answers 200 with the static body. -/
def healthRoute : HandlerOutcome :=
  { trace := []
  , result := .respond
      { status := 200
      , body := some (.obj [("message", .str "Backend Service is healthy")]) } }

/-- An inbound request to one of the embedded routes, with its
route-specific data. -/
inductive Inbound where
  | health
  | list (resource : String)
  | updateTask (taskId : String) (patchBody : Json)
  | createPatient (form : PatientForm)
  | createServiceRequestAndTask (form : ReferralForm)
deriving Repr

/-- The oracle for one inbound request: outcomes of the middleware's token
call, of the handler's own token call (for the routes that re-fetch), and
of up to two downstream data calls, plus the clock reading for
`authoredOn`. -/
structure Oracle where
  middlewareTokenOutcome : AxiosOutcome
  handlerTokenOutcome : AxiosOutcome
  firstCallOutcome : AxiosOutcome
  secondCallOutcome : AxiosOutcome
  now : String
deriving Repr

/-- Dispatch of the matched route handler, given the token the middleware
attached to the request. -/
def runHandler (creds : Credentials) (fhirServerURL : String)
    (accessToken : Option Json) (inb : Inbound) (o : Oracle) : HandlerOutcome :=
  match inb with
  | .health => healthRoute
  | .list resource => listRoute fhirServerURL resource accessToken o.firstCallOutcome
  | .updateTask taskId patchBody =>
      updateTaskRoute creds fhirServerURL taskId patchBody
        o.handlerTokenOutcome o.firstCallOutcome
  | .createPatient form =>
      createPatientRoute creds fhirServerURL form
        o.handlerTokenOutcome o.firstCallOutcome
  | .createServiceRequestAndTask form =>
      createServiceRequestAndTaskRoute creds fhirServerURL form o.now
        o.handlerTokenOutcome o.firstCallOutcome o.secondCallOutcome

/-- The observable outcome of one inbound request: every outbound call
made on its behalf, the response sent, and whether the matched route
handler ran. -/
structure RequestOutcome where
  trace : List OutboundRequest
  response : Response
  handlerRan : Bool
deriving Repr

/-- The response of Express's built-in default error handler.  The
error-handling middleware of makeFhirRequest.js is registered at line 43,
before the route handlers (lines 56 onward), and Express delivers a
forwarded error only to error middleware registered after the layer that
called `next(error)`; an error forwarded by a route handler therefore
falls through to this built-in handler, which answers 500 with an HTML
error page — no JSON body. -/
def expressDefaultErrorResponse : Response :=
  { status := 500, body := none }

/-- The per-request pipeline of makeFhirRequest.js: the auth middleware
(lines 23-31) acquires a token before any route logic.  On failure it
forwards the error, which reaches the error middleware (registered at
line 43, after the auth middleware), and the handler never runs.  On
success it attaches the token to the request and the matched handler
runs; an error the handler forwards, however, bypasses the error
middleware — registered at line 43, before the routes — and falls through
to Express's built-in default handler. -/
def processOne (creds : Credentials) (fhirServerURL : String)
    (inb : Inbound) (o : Oracle) : RequestOutcome :=
  let attempt := getAzureADToken creds o.middlewareTokenOutcome
  match attempt.result with
  | .error e =>
      { trace := [attempt.request], response := errorHandler e, handlerRan := false }
  | .ok tok =>
      let h := runHandler creds fhirServerURL tok inb o
      { trace := attempt.request :: h.trace
      , response :=
          match h.result with
          | .respond r => r
          | .forward _ => expressDefaultErrorResponse
      , handlerRan := true }

/-- Processing of a sequence of inbound requests.  The service keeps no
state across requests (module scope holds only read-once configuration,
no token cache), so each request is processed from its own inbound data
and oracle alone. -/
def processSeq (creds : Credentials) (fhirServerURL : String) :
    List (Inbound × Oracle) → List RequestOutcome
  | [] => []
  | (inb, o) :: rest =>
      processOne creds fhirServerURL inb o :: processSeq creds fhirServerURL rest

/-- A concrete credential set for the concrete-instance theorems. -/
def credsEx : Credentials :=
  { tenantId := "tenant-1"
  , clientId := "client-1"
  , clientSecret := "s3cret"
  , scope := "api://fhir/.default"
  , tokenUrl := "https://login.example/oauth2/v2.0/token" }

/-- An oracle on which every outbound call succeeds. -/
def okOracle : Oracle :=
  { middlewareTokenOutcome := .success 200 (.obj [("access_token", .str "tokA")])
  , handlerTokenOutcome := .success 200 (.obj [("access_token", .str "tokB")])
  , firstCallOutcome := .success 200 (.obj [("entry", .arr [])])
  , secondCallOutcome := .success 200 (.obj [("id", .str "task-9")])
  , now := "2026-01-01T00:00:00.000Z" }

/-- An oracle on which the middleware's token call gets no response. -/
def failTokenOracle : Oracle :=
  { middlewareTokenOutcome := .noResponse "connect ETIMEDOUT"
  , handlerTokenOutcome := .success 200 (.obj [("access_token", .str "tokB")])
  , firstCallOutcome := .success 200 (.obj [("entry", .arr [])])
  , secondCallOutcome := .success 200 (.obj [("id", .str "task-9")])
  , now := "2026-01-01T00:00:00.000Z" }

/-- An oracle on which token calls succeed but the first downstream call
is rejected upstream with a 404. -/
def upstream404Oracle : Oracle :=
  { middlewareTokenOutcome := .success 200 (.obj [("access_token", .str "tokA")])
  , handlerTokenOutcome := .success 200 (.obj [("access_token", .str "tokB")])
  , firstCallOutcome := .httpError 404 (.obj [("issue", .str "not found")])
      "Request failed with status code 404"
  , secondCallOutcome := .success 200 (.obj [("id", .str "task-9")])
  , now := "2026-01-01T00:00:00.000Z" }

/-- A concrete `/createPatient` form body. -/
def patientFormEx : PatientForm :=
  { firstName := "Ada", lastName := "Lovelace", dateOfBirth := "1990-01-01"
  , gender := "female", race := "White", sex_at_birth := "Female"
  , ethnicity := "Not Hispanic or Latino", genderIdentity := ""
  , sexualOrientation := "", language := "English"
  , phoneNumber := "555-0100", email := "ada@example.com"
  , address1 := "1 Main St", address2 := "", city := "Chicago"
  , state := "IL", zipcode := "60601" }

/-- A concrete `/createServiceRequestandtask` form body. -/
def referralFormEx : ReferralForm :=
  { patientID := "pat-1", practitionerId := "prac-2"
  , practitionerName := "Dr. Example", organizationId := "org-3"
  , organizationName := "Acleap Org", referralText := "please refer"
  , serviceRequestText := "housing support" }


/-! ### Helper lemmas -/

/-- Unfolding of `processOne` when the middleware's token call fails. -/
theorem processOne_token_error (creds : Credentials) (url : String) (inb : Inbound)
    (o : Oracle) (e : JsError)
    (h : (getAzureADToken creds o.middlewareTokenOutcome).result = .error e) :
    processOne creds url inb o
      = { trace := [tokenRequest creds], response := errorHandler e, handlerRan := false } := by
  unfold processOne
  cases ho : o.middlewareTokenOutcome with
  | success st d =>
      rw [ho] at h
      exact absurd h (by simp [getAzureADToken])
  | httpError st d m =>
      rw [ho] at h
      rw [← Except.error.inj h]
      rfl
  | noResponse m =>
      rw [ho] at h
      rw [← Except.error.inj h]
      rfl
  | setupError m =>
      rw [ho] at h
      rw [← Except.error.inj h]
      rfl

/-- Unfolding of `processOne` when the middleware's token call succeeds. -/
theorem processOne_token_ok (creds : Credentials) (url : String) (inb : Inbound)
    (o : Oracle) (tok : Option Json)
    (h : (getAzureADToken creds o.middlewareTokenOutcome).result = .ok tok) :
    processOne creds url inb o
      = { trace := tokenRequest creds :: (runHandler creds url tok inb o).trace
        , response :=
            match (runHandler creds url tok inb o).result with
            | .respond r => r
            | .forward _ => expressDefaultErrorResponse
        , handlerRan := true } := by
  unfold processOne
  cases ho : o.middlewareTokenOutcome with
  | success st d =>
      rw [ho] at h
      rw [← Except.ok.inj h]
      rfl
  | httpError st d m =>
      rw [ho] at h
      exact absurd h (by simp [getAzureADToken])
  | noResponse m =>
      rw [ho] at h
      exact absurd h (by simp [getAzureADToken])
  | setupError m =>
      rw [ho] at h
      exact absurd h (by simp [getAzureADToken])

/-- Every inbound request's outbound trace begins with its own
token-endpoint call: the auth middleware runs before every route. -/
theorem processOne_trace_starts_with_token (creds : Credentials) (url : String)
    (inb : Inbound) (o : Oracle) :
    (processOne creds url inb o).trace.head? = some (tokenRequest creds) := by
  unfold processOne
  cases ho : o.middlewareTokenOutcome <;> rfl

/-- Sequence processing is the pointwise, stateless processing of each
request. -/
theorem processSeq_eq_map (creds : Credentials) (url : String)
    (l : List (Inbound × Oracle)) :
    processSeq creds url l = l.map (fun p => processOne creds url p.1 p.2) := by
  induction l with
  | nil => rfl
  | cons p rest ih =>
      obtain ⟨inb, o⟩ := p
      simp [processSeq, ih]

/-! ### Claim theorems -/

/-- C1 counterexample: with the token endpoint unreachable, `GET /health`
answers 500 and its handler never runs — the response is not the static
200 body, so the health route is not independent of the AuthMiddleware. -/
theorem c1_counterexample_health_not_independent :
    (processOne credsEx "https://fhir.example" .health failTokenOracle).response.status = 500 ∧
    (processOne credsEx "https://fhir.example" .health failTokenOracle).handlerRan = false :=
  ⟨rfl, rfl⟩

/-- C1 (amended): `GET /health` answers 200 with the fixed static body,
independent of downstream health, whenever the middleware's token
acquisition succeeds; but the route is registered behind the global auth
middleware, so when token acquisition fails the request short-circuits to
the error handler and the response is the 500 local-fault classification
of the AuthFailure, not 200. -/
theorem c1_health_static_only_when_auth_succeeds (creds : Credentials)
    (url : String) (o : Oracle) :
    (∀ tok, (getAzureADToken creds o.middlewareTokenOutcome).result = .ok tok →
      processOne creds url .health o
        = { trace := [tokenRequest creds]
          , response :=
              { status := 200
              , body := some (.obj [("message", .str "Backend Service is healthy")]) }
          , handlerRan := true }) ∧
    (∀ e, (getAzureADToken creds o.middlewareTokenOutcome).result = .error e →
      processOne creds url .health o
        = { trace := [tokenRequest creds]
          , response :=
              { status := 500
              , body := some (.obj
                  [ ("message", .str "Error processing your request")
                  , ("error", .str "Failed to obtain access token from Azure AD") ]) }
          , handlerRan := false }) := by
  constructor
  · intro tok h
    rw [processOne_token_ok creds url .health o tok h]
    rfl
  · intro e h
    rw [processOne_token_error creds url .health o e h]
    cases ho : o.middlewareTokenOutcome with
    | success st d =>
        rw [ho] at h
        exact absurd h (by simp [getAzureADToken])
    | httpError st d m =>
        rw [ho] at h
        rw [← Except.error.inj h]
        rfl
    | noResponse m =>
        rw [ho] at h
        rw [← Except.error.inj h]
        rfl
    | setupError m =>
        rw [ho] at h
        rw [← Except.error.inj h]
        rfl

/-- C1 witness: the amended claim evaluated on a succeeding oracle (200,
static body) and on a token-failure oracle (500, handler never ran). -/
theorem c1_health_static_only_when_auth_succeeds_witness :
    processOne credsEx "https://fhir.example" .health okOracle
      = { trace := [tokenRequest credsEx]
        , response :=
            { status := 200
            , body := some (.obj [("message", .str "Backend Service is healthy")]) }
        , handlerRan := true } ∧
    processOne credsEx "https://fhir.example" .health failTokenOracle
      = { trace := [tokenRequest credsEx]
        , response :=
            { status := 500
            , body := some (.obj
                [ ("message", .str "Error processing your request")
                , ("error", .str "Failed to obtain access token from Azure AD") ]) }
        , handlerRan := false } :=
  ⟨(c1_health_static_only_when_auth_succeeds credsEx "https://fhir.example" okOracle).1
      (some (.str "tokA")) rfl,
   (c1_health_static_only_when_auth_succeeds credsEx "https://fhir.example" failTokenOracle).2
      { response := none, request := false
      , message := "Failed to obtain access token from Azure AD" } rfl⟩

/-- C2 counterexample: for a token-endpoint 400 whose response body is
`{error: 'invalid_client'}`, the propagated failure is the fixed
`Error('Failed to obtain access token from Azure AD')` with no attached
response — identical to the failure for a connection refusal — so the
AuthFailure carries neither the upstream error body nor the
transport-level message (those are only logged). -/
theorem c2_counterexample_fixed_failure_message :
    (getAzureADToken credsEx (.httpError 400
        (.obj [("error", .str "invalid_client")])
        "Request failed with status code 400")).result
      = .error { response := none, request := false
               , message := "Failed to obtain access token from Azure AD" } ∧
    (getAzureADToken credsEx (.httpError 400
        (.obj [("error", .str "invalid_client")])
        "Request failed with status code 400")).result
      = (getAzureADToken credsEx (.noResponse "connect ECONNREFUSED")).result :=
  ⟨rfl, rfl⟩

/-- C2 (amended): when the token-endpoint call fails, `getAzureADToken`
issues exactly one request (no retry), logs the upstream error body when a
response was received and otherwise the transport-level message, and fails
with the fixed AuthFailure `Error('Failed to obtain access token from
Azure AD')`, which carries neither. -/
theorem c2_auth_failure_fixed_and_logged (c : Credentials) (o : AxiosOutcome)
    (h : o.isFailure = true) :
    (getAzureADToken c o).request = tokenRequest c ∧
    (getAzureADToken c o).result
      = .error { response := none, request := false
               , message := "Failed to obtain access token from Azure AD" } ∧
    (∀ st d m, o = .httpError st d m → (getAzureADToken c o).logged = some d) ∧
    (∀ m, o = .noResponse m → (getAzureADToken c o).logged = some (.str m)) ∧
    (∀ m, o = .setupError m → (getAzureADToken c o).logged = some (.str m)) := by
  cases o with
  | success st d => simp [AxiosOutcome.isFailure] at h
  | httpError st d m =>
      refine ⟨rfl, rfl, ?_, ?_, ?_⟩ <;> intros <;> simp_all [getAzureADToken]
  | noResponse m =>
      refine ⟨rfl, rfl, ?_, ?_, ?_⟩ <;> intros <;> simp_all [getAzureADToken]
  | setupError m =>
      refine ⟨rfl, rfl, ?_, ?_, ?_⟩ <;> intros <;> simp_all [getAzureADToken]

/-- C2 witness: the amended claim evaluated on a 503 rejection with body
`{error: 'temporarily_unavailable'}`. -/
theorem c2_auth_failure_fixed_and_logged_witness :
    (getAzureADToken credsEx (.httpError 503
        (.obj [("error", .str "temporarily_unavailable")])
        "Request failed with status code 503")).request = tokenRequest credsEx ∧
    (getAzureADToken credsEx (.httpError 503
        (.obj [("error", .str "temporarily_unavailable")])
        "Request failed with status code 503")).result
      = .error { response := none, request := false
               , message := "Failed to obtain access token from Azure AD" } ∧
    (getAzureADToken credsEx (.httpError 503
        (.obj [("error", .str "temporarily_unavailable")])
        "Request failed with status code 503")).logged
      = some (.obj [("error", .str "temporarily_unavailable")]) := by
  have h := c2_auth_failure_fixed_and_logged credsEx
    (.httpError 503 (.obj [("error", .str "temporarily_unavailable")])
      "Request failed with status code 503") rfl
  exact ⟨h.1, h.2.1, h.2.2.1 503 _ _ rfl⟩


/-- C3 counterexample: a `/createPatient` request whose upstream POST is
rejected with status 404 is answered 500 — not the echoed 404 — with the
ad-hoc body `{error: 'Internal Server Error'}`, which has no `message`
field: this route does not use the shared classifier. -/
theorem c3_counterexample_create_patient_ad_hoc :
    (createPatientRoute credsEx "https://fhir.example" patientFormEx
        (.success 200 (.obj [("access_token", .str "tokB")]))
        (.httpError 404 (.obj [("issue", .str "not found")])
          "Request failed with status code 404")).result
      = .respond
          { status := 500
          , body := some (.obj [("error", .str "Internal Server Error")]) } ∧
    Json.getField (.obj [("error", .str "Internal Server Error")]) "message" = none ∧
    (500 : Nat) ≠ 404 :=
  ⟨rfl, rfl, by decide⟩

/-- C3 (amended): only token-acquisition failures are converted through
the shared classifier, yielding its JSON body with `message` and `error`
fields; the list and update routes do forward their failures with
`next(error)`, but the error middleware is registered before the route
handlers, so those errors bypass the classifier and fall through to
Express's built-in default handler — 500 with no JSON body and no
upstream-status echo (the update route additionally re-wraps the failure
in a plain `Error` that loses the upstream response); and the
`/createPatient` and `/createServiceRequestandtask` routes answer ad hoc
`500 {error: 'Internal Server Error'}` with no `message` field. -/
theorem c3_error_paths_not_uniform (creds : Credentials)
    (url resource taskId : String) (patchBody : Json) (form : PatientForm)
    (rform : ReferralForm) (o : Oracle) (tok tok2 : Option Json) (st : Nat)
    (d : Json) (m : String) :
    ((getAzureADToken creds o.middlewareTokenOutcome).result
        = .error { response := none, request := false
                 , message := "Failed to obtain access token from Azure AD" } →
      (processOne creds url (.list resource) o).response
        = errorHandler { response := none, request := false
                       , message := "Failed to obtain access token from Azure AD" } ∧
      (processOne creds url (.list resource) o).response
        = { status := 500
          , body := some (.obj
              [ ("message", .str "Error processing your request")
              , ("error", .str "Failed to obtain access token from Azure AD") ]) }) ∧
    ((getAzureADToken creds o.middlewareTokenOutcome).result = .ok tok →
      o.firstCallOutcome = .httpError st d m →
      (runHandler creds url tok (.list resource) o).result
        = .forward { response := some (st, d), request := true, message := m } ∧
      (processOne creds url (.list resource) o).response
        = expressDefaultErrorResponse) ∧
    ((getAzureADToken creds o.middlewareTokenOutcome).result = .ok tok →
      (getAzureADToken creds o.handlerTokenOutcome).result = .ok tok2 →
      o.firstCallOutcome = .httpError st d m →
      (updateTaskRoute creds url taskId patchBody o.handlerTokenOutcome
          o.firstCallOutcome).result
        = .forward { response := none, request := false
                   , message := "Error updating Task: " ++ d.jsString } ∧
      (processOne creds url (.updateTask taskId patchBody) o).response
        = expressDefaultErrorResponse) ∧
    ((createPatientRoute creds url form o.handlerTokenOutcome
        (.httpError st d m)).result = .respond internalServerErrorResponse) ∧
    ((createServiceRequestAndTaskRoute creds url rform o.now
        o.handlerTokenOutcome (.httpError st d m) o.secondCallOutcome).result
      = .respond internalServerErrorResponse) ∧
    expressDefaultErrorResponse.status = 500 ∧
    expressDefaultErrorResponse.body = none ∧
    internalServerErrorResponse.status = 500 ∧
    (internalServerErrorResponse.body.bind (fun b => b.getField "message")) = none := by
  refine ⟨?_, ?_, ?_, ?_, ?_, rfl, rfl, rfl, rfl⟩
  · intro h
    constructor
    · rw [processOne_token_error creds url (.list resource) o _ h]
    · rw [processOne_token_error creds url (.list resource) o _ h]
      rfl
  · intro h1 h2
    constructor
    · have hrun : runHandler creds url tok (.list resource) o
          = listRoute url resource tok o.firstCallOutcome := rfl
      rw [hrun, h2]
      rfl
    · rw [processOne_token_ok creds url (.list resource) o tok h1]
      have hrun : runHandler creds url tok (.list resource) o
          = listRoute url resource tok o.firstCallOutcome := rfl
      rw [hrun, h2]
      rfl
  · intro h1 h3 h2
    have hfwd : (updateTaskRoute creds url taskId patchBody o.handlerTokenOutcome
        o.firstCallOutcome).result
          = .forward { response := none, request := false
                     , message := "Error updating Task: " ++ d.jsString } := by
      rw [h2]
      cases hto : o.handlerTokenOutcome with
      | success st2 d2 => rfl
      | httpError st2 d2 m2 =>
          rw [hto] at h3
          exact absurd h3 (by simp [getAzureADToken])
      | noResponse m2 =>
          rw [hto] at h3
          exact absurd h3 (by simp [getAzureADToken])
      | setupError m2 =>
          rw [hto] at h3
          exact absurd h3 (by simp [getAzureADToken])
    refine ⟨hfwd, ?_⟩
    rw [processOne_token_ok creds url (.updateTask taskId patchBody) o tok h1]
    have hrun : runHandler creds url tok (.updateTask taskId patchBody) o
        = updateTaskRoute creds url taskId patchBody o.handlerTokenOutcome
            o.firstCallOutcome := rfl
    rw [hrun, hfwd]
  · cases hto : o.handlerTokenOutcome <;> rfl
  · cases hto : o.handlerTokenOutcome <;> rfl

/-- C3 witness: the amended claim evaluated concretely — a token failure
classified 500 local-fault by the shared classifier; a list-route 404
forwarded but answered by Express's default handler (500, no JSON body,
the 404 not echoed); an update-route 404 re-wrapped into a plain `Error`
and likewise answered by the default handler; and the two create routes
answering the ad-hoc 500 body. -/
theorem c3_error_paths_not_uniform_witness :
    ((processOne credsEx "https://fhir.example" (.list "Task") failTokenOracle).response
      = { status := 500
        , body := some (.obj
            [ ("message", .str "Error processing your request")
            , ("error", .str "Failed to obtain access token from Azure AD") ]) }) ∧
    ((runHandler credsEx "https://fhir.example" (some (.str "tokA")) (.list "Task")
        upstream404Oracle).result
      = .forward { response := some (404, .obj [("issue", .str "not found")])
                 , request := true
                 , message := "Request failed with status code 404" }) ∧
    ((processOne credsEx "https://fhir.example" (.list "Task") upstream404Oracle).response
      = expressDefaultErrorResponse) ∧
    ((updateTaskRoute credsEx "https://fhir.example" "123" (.arr [])
        upstream404Oracle.handlerTokenOutcome upstream404Oracle.firstCallOutcome).result
      = .forward { response := none, request := false
                 , message := "Error updating Task: "
                     ++ (Json.obj [("issue", .str "not found")]).jsString }) ∧
    ((processOne credsEx "https://fhir.example" (.updateTask "123" (.arr []))
        upstream404Oracle).response = expressDefaultErrorResponse) ∧
    ((createPatientRoute credsEx "https://fhir.example" patientFormEx
        upstream404Oracle.handlerTokenOutcome
        (.httpError 404 (.obj [("issue", .str "not found")])
          "Request failed with status code 404")).result
      = .respond internalServerErrorResponse) ∧
    ((createServiceRequestAndTaskRoute credsEx "https://fhir.example" referralFormEx
        upstream404Oracle.now upstream404Oracle.handlerTokenOutcome
        (.httpError 404 (.obj [("issue", .str "not found")])
          "Request failed with status code 404")
        upstream404Oracle.secondCallOutcome).result
      = .respond internalServerErrorResponse) := by
  have t1 := c3_error_paths_not_uniform credsEx "https://fhir.example" "Task" "123"
    (.arr []) patientFormEx referralFormEx failTokenOracle none none 404
    (.obj [("issue", .str "not found")]) "Request failed with status code 404"
  have t2 := c3_error_paths_not_uniform credsEx "https://fhir.example" "Task" "123"
    (.arr []) patientFormEx referralFormEx upstream404Oracle (some (.str "tokA"))
    (some (.str "tokB")) 404
    (.obj [("issue", .str "not found")]) "Request failed with status code 404"
  exact ⟨(t1.1 rfl).2, (t2.2.1 rfl rfl).1, (t2.2.1 rfl rfl).2,
    (t2.2.2.1 rfl rfl rfl).1, (t2.2.2.1 rfl rfl rfl).2,
    t2.2.2.2.1, t2.2.2.2.2.1⟩

/-- C4: if the middleware's token acquisition fails for a request, the
matched route handler never runs: the request short-circuits to the
error-handling middleware with no downstream call, and its outcome is the
same whatever route was matched. -/
theorem c4_auth_failure_short_circuits (creds : Credentials) (url : String)
    (inb : Inbound) (o : Oracle) (e : JsError)
    (h : (getAzureADToken creds o.middlewareTokenOutcome).result = .error e) :
    processOne creds url inb o
      = { trace := [tokenRequest creds], response := errorHandler e, handlerRan := false } ∧
    (∀ inb2 : Inbound, processOne creds url inb2 o = processOne creds url inb o) := by
  constructor
  · exact processOne_token_error creds url inb o e h
  · intro inb2
    rw [processOne_token_error creds url inb2 o e h,
        processOne_token_error creds url inb o e h]

/-- C4 witness: the short-circuit evaluated on a list request whose token
call times out. -/
theorem c4_auth_failure_short_circuits_witness :
    processOne credsEx "https://fhir.example" (.list "Task") failTokenOracle
      = { trace := [tokenRequest credsEx]
        , response := errorHandler
            { response := none, request := false
            , message := "Failed to obtain access token from Azure AD" }
        , handlerRan := false } ∧
    (∀ inb2 : Inbound, processOne credsEx "https://fhir.example" inb2 failTokenOracle
        = processOne credsEx "https://fhir.example" (.list "Task") failTokenOracle) :=
  c4_auth_failure_short_circuits credsEx "https://fhir.example" (.list "Task")
    failTokenOracle _ rfl

/-- C5: the shared error classifier reports the upstream's own status with
body `{message: 'FHIR Server Error', error: <upstream body>}` when the
error carries an upstream response; 500 with message 'No response received
from FHIR Server' when a request was sent but no response arrived; and 500
with message 'Error processing your request' otherwise. -/
theorem c5_error_classifier_three_way (e : JsError) :
    (∀ st d, e.response = some (st, d) →
      errorHandler e =
        { status := st
        , body := some (.obj [("message", .str "FHIR Server Error"), ("error", d)]) }) ∧
    (e.response = none → e.request = true →
      errorHandler e =
        { status := 500
        , body := some (.obj
            [ ("message", .str "No response received from FHIR Server")
            , ("error", .str e.message) ]) }) ∧
    (e.response = none → e.request = false →
      errorHandler e =
        { status := 500
        , body := some (.obj
            [ ("message", .str "Error processing your request")
            , ("error", .str e.message) ]) }) := by
  refine ⟨?_, ?_, ?_⟩
  · intro st d h
    simp [errorHandler, h]
  · intro h1 h2
    simp [errorHandler, h1, h2]
  · intro h1 h2
    simp [errorHandler, h1, h2]

/-- C5 witness: a failure carrying upstream status 404 and body
`{issue: 'not found'}` is reported as 404 with
`{message: 'FHIR Server Error', error: {issue: 'not found'}}`. -/
theorem c5_error_classifier_three_way_witness :
    errorHandler
        { response := some (404, .obj [("issue", .str "not found")])
        , request := true, message := "Request failed with status code 404" } =
      { status := 404
      , body := some (.obj
          [ ("message", .str "FHIR Server Error")
          , ("error", .obj [("issue", .str "not found")]) ]) } :=
  (c5_error_classifier_three_way _).1 404 (.obj [("issue", .str "not found")]) rfl

/-- C6: on a 2xx token response, `getAzureADToken` returns exactly the
`access_token` field of the JSON body, and every other field of the body
(and the concrete 2xx status) is ignored: the result is determined by that
one field alone. -/
theorem c6_token_success_extracts_access_token (c : Credentials)
    (st st2 : Nat) (body body2 : Json) :
    (getAzureADToken c (.success st body)).result = .ok (body.getField "access_token") ∧
    (body.getField "access_token" = body2.getField "access_token" →
      (getAzureADToken c (.success st body)).result
        = (getAzureADToken c (.success st2 body2)).result) := by
  constructor
  · rfl
  · intro h
    simp [getAzureADToken, h]

/-- C6 witness: a stubbed 200 with `{access_token: 'T', expires_in: 3599}`
yields exactly `'T'`, and agrees with any other 2xx body whose
`access_token` is `'T'`. -/
theorem c6_token_success_extracts_access_token_witness :
    (getAzureADToken credsEx (.success 200
        (.obj [("access_token", .str "T"), ("expires_in", .num 3599)]))).result
      = (getAzureADToken credsEx (.success 201
        (.obj [("token_type", .str "Bearer"), ("access_token", .str "T")]))).result ∧
    (getAzureADToken credsEx (.success 200
        (.obj [("access_token", .str "T"), ("expires_in", .num 3599)]))).result
      = .ok (some (.str "T")) :=
  ⟨(c6_token_success_extracts_access_token credsEx 200 201 _ _).2 rfl, rfl⟩


/-- C7: with its token call succeeding, the `/update/Task/:taskId` route
sends exactly one PATCH — to `{fhirServerURL}/Task/{taskId}`, with the
bearer Authorization header, content-type `application/json-patch+json`,
and the request body relayed verbatim as the JSON Patch document —
whatever the PATCH outcome. -/
theorem c7_update_task_single_patch (creds : Credentials) (url taskId : String)
    (patchBody : Json) (tok : Option Json) (tokenOutcome patchOutcome : AxiosOutcome)
    (h : (getAzureADToken creds tokenOutcome).result = .ok tok) :
    (updateTaskRoute creds url taskId patchBody tokenOutcome patchOutcome).trace
      = [ tokenRequest creds
        , { method := .PATCH
          , url := url ++ "/Task/" ++ taskId
          , headers :=
              [ ("Authorization", "Bearer " ++ jsToString tok)
              , ("Content-Type", "application/json-patch+json") ]
          , params := []
          , body := some patchBody } ] ∧
    ((updateTaskRoute creds url taskId patchBody tokenOutcome patchOutcome).trace.countP
        (fun r => r.method == Method.PATCH)) = 1 := by
  cases tokenOutcome with
  | success st d =>
      rw [← Except.ok.inj h]
      cases patchOutcome <;> exact ⟨rfl, rfl⟩
  | httpError st d m => exact absurd h (by simp [getAzureADToken])
  | noResponse m => exact absurd h (by simp [getAzureADToken])
  | setupError m => exact absurd h (by simp [getAzureADToken])

/-- C7 witness: `POST /update/Task/123` with body
`[{op: 'replace', path: '/status', value: 'completed'}]` sends one PATCH
to `{base}/Task/123` carrying exactly that document. -/
theorem c7_update_task_single_patch_witness :
    (updateTaskRoute credsEx "https://fhir.example" "123"
        (.arr [.obj [("op", .str "replace"), ("path", .str "/status")
                    , ("value", .str "completed")]])
        (.success 200 (.obj [("access_token", .str "tokB")])) (.success 200 .null)).trace
      = [ tokenRequest credsEx
        , { method := .PATCH
          , url := "https://fhir.example" ++ "/Task/" ++ "123"
          , headers :=
              [ ("Authorization", "Bearer " ++ jsToString (some (.str "tokB")))
              , ("Content-Type", "application/json-patch+json") ]
          , params := []
          , body := some (.arr [.obj [("op", .str "replace"), ("path", .str "/status")
                                     , ("value", .str "completed")]]) } ] ∧
    ((updateTaskRoute credsEx "https://fhir.example" "123"
        (.arr [.obj [("op", .str "replace"), ("path", .str "/status")
                    , ("value", .str "completed")]])
        (.success 200 (.obj [("access_token", .str "tokB")])) (.success 200 .null)).trace.countP
        (fun r => r.method == Method.PATCH)) = 1 :=
  c7_update_task_single_patch credsEx "https://fhir.example" "123" _
    (some (.str "tokB")) _ _ rfl

/-- C8: every list GET carries the bearer Authorization header and the
`_count=10000` page-size parameter in a single outbound request, and on
upstream success the caller receives status 200 with exactly the `entry`
list of the upstream bundle. -/
theorem c8_list_relays_entry_with_bearer_and_count (url resource : String)
    (tok : Option Json) (st : Nat) (data entries : Json)
    (h : data.getField "entry" = some entries) :
    (makeFHIRRequest url tok resource).headers
      = [("Authorization", "Bearer " ++ jsToString tok)] ∧
    (makeFHIRRequest url tok resource).params = [("_count", "10000")] ∧
    (listRoute url resource tok (.success st data)).trace
      = [makeFHIRRequest url tok resource] ∧
    (listRoute url resource tok (.success st data)).result
      = .respond { status := 200, body := some entries } := by
  refine ⟨rfl, rfl, rfl, ?_⟩
  simp [listRoute, h]

/-- C8 witness: a Task list whose stub returns `{entry: [a, b]}` yields
exactly `[a, b]`, through a request carrying the bearer header and the
`_count=10000` parameter. -/
theorem c8_list_relays_entry_with_bearer_and_count_witness :
    (makeFHIRRequest "https://fhir.example" (some (.str "tokA")) "Task").headers
      = [("Authorization", "Bearer " ++ jsToString (some (.str "tokA")))] ∧
    (makeFHIRRequest "https://fhir.example" (some (.str "tokA")) "Task").params
      = [("_count", "10000")] ∧
    (listRoute "https://fhir.example" "Task" (some (.str "tokA"))
        (.success 200 (.obj [("entry", .arr
          [.obj [("resource", .str "t1")], .obj [("resource", .str "t2")]])]))).trace
      = [makeFHIRRequest "https://fhir.example" (some (.str "tokA")) "Task"] ∧
    (listRoute "https://fhir.example" "Task" (some (.str "tokA"))
        (.success 200 (.obj [("entry", .arr
          [.obj [("resource", .str "t1")], .obj [("resource", .str "t2")]])]))).result
      = .respond
          { status := 200
          , body := some (.arr [.obj [("resource", .str "t1")], .obj [("resource", .str "t2")]]) } :=
  c8_list_relays_entry_with_bearer_and_count "https://fhir.example" "Task"
    (some (.str "tokA")) 200 _ _ rfl

/-- C9: no token is carried between inbound requests: the i-th outcome of
a processed request sequence is exactly the stateless processing of the
i-th request from its own data and oracle alone, and that request's
outbound trace begins with its own fresh token-endpoint round trip. -/
theorem c9_fresh_token_per_request (creds : Credentials) (url : String)
    (l : List (Inbound × Oracle)) (i : Nat) (h : i < l.length) :
    (processSeq creds url l)[i]?
      = some (processOne creds url (l.get ⟨i, h⟩).1 (l.get ⟨i, h⟩).2) ∧
    (processOne creds url (l.get ⟨i, h⟩).1 (l.get ⟨i, h⟩).2).trace.head?
      = some (tokenRequest creds) := by
  constructor
  · rw [processSeq_eq_map, List.getElem?_map, List.getElem?_eq_getElem h]
    simp
  · exact processOne_trace_starts_with_token creds url _ _

/-- C9 witness: a one-request sequence evaluated concretely. -/
theorem c9_fresh_token_per_request_witness :
    (processSeq credsEx "https://fhir.example" [(.health, okOracle)])[0]?
      = some (processOne credsEx "https://fhir.example" .health okOracle) ∧
    (processOne credsEx "https://fhir.example" .health okOracle).trace.head?
      = some (tokenRequest credsEx) :=
  c9_fresh_token_per_request credsEx "https://fhir.example" [(.health, okOracle)] 0
    (by decide)

end Acleap
